import Mathlib

/-!
Shallow embedding of the Chatbot-Enhancer browser extension's content
scripts (platform detection / DOM observation, syntax highlighter, theme
manager, session recorder, command bar, orchestrator), together with
theorems settling the specification claims.

DOM elements are modelled as records carrying exactly the fields the code
reads or writes (class lists, attributes, inner markup, parent shape);
the live document, where a routine scans it, is the ordered list of nodes
its selector matches.  The wall clock (`new Date().toISOString()`) is
abstracted as a string parameter, and the external Prism highlighting
library as an optional pure function (`window.Prism` may be absent).
-/

namespace ChatbotEnhancer

/-! ## Change Observer (src/unnamed/part_000, `observeDOMChanges`) -/

/-- A DOM node as seen by a mutation callback: its `nodeType`
(1 = `Node.ELEMENT_NODE`), its `classList` and the set of attribute
names present on it. -/
structure DomNode where
  nodeType : Nat
  classes : List String
  attrs : List String
  deriving Repr, DecidableEq

/-- A single `MutationRecord`: its `type` ("childList", "attributes", ...)
and its `addedNodes` list (empty for removals / attribute-only changes). -/
structure MutationRecord where
  type : String
  addedNodes : List DomNode
  deriving Repr, DecidableEq

/-- The platform-specific test applied to one added node inside
`observeDOMChanges`: an element node that, for chatgpt, carries the
`markdown` class or a `data-message-author-role` attribute; for mistral,
carries the `chat-message` class. -/
def nodeTriggersCallback (platform : String) (n : DomNode) : Bool :=
  n.nodeType == 1 &&
    ((platform == "chatgpt" &&
        (n.classes.contains "markdown" || n.attrs.contains "data-message-author-role")) ||
     (platform == "mistral" && n.classes.contains "chat-message"))

/-- The `shouldCallback` flag computed over a whole mutation batch:
set when some `childList` mutation with a nonempty `addedNodes` list
contains a node passing the platform test. -/
def shouldCallback (platform : String) (mutations : List MutationRecord) : Bool :=
  mutations.any fun m =>
    m.type == "childList" && m.addedNodes.length > 0 &&
      m.addedNodes.any (nodeTriggersCallback platform)

/-- Number of times the observer body invokes the registered `callback`
for one delivered batch: once when `shouldCallback` is set, else zero. -/
def callbackInvocations (platform : String) (mutations : List MutationRecord) : Nat :=
  if shouldCallback platform mutations then 1 else 0

/-- Count of qualifying newly added element nodes across the batch
(the `N` of the coalescing claim): added nodes of `childList` mutations
that pass the platform test. -/
def qualifyingAddedCount (platform : String) (mutations : List MutationRecord) : Nat :=
  (mutations.map fun m =>
      if m.type == "childList" then
        (m.addedNodes.filter (nodeTriggersCallback platform)).length
      else 0).sum

/-! ## Platform detection (src/unnamed/part_000, `detectChatbotPlatform`) -/

/-- Inputs of `detectChatbotPlatform`: the page URL and whether the two
DOM-fingerprint queries (`.markdown`, `.chat-message`) find an element. -/
structure PageFingerprint where
  url : String
  hasMarkdownElem : Bool
  hasChatMessageElem : Bool
  deriving Repr, DecidableEq

/-- `detectChatbotPlatform`: URL substring checks first, then the DOM
fingerprint fallback; `none` when nothing matches. -/
def detectChatbotPlatform (p : PageFingerprint) : Option String :=
  if (p.url.splitOn "chat.openai.com").length > 1 then some "chatgpt"
  else if (p.url.splitOn "mistral.ai").length > 1 then some "mistral"
  else if p.hasMarkdownElem then some "chatgpt"
  else if p.hasChatMessageElem then some "mistral"
  else none

/-! ## Syntax highlighter (src/content/features/syntaxHighlighter.js) -/

/-- A code block node as the highlighter sees it: its own `classList`,
`innerHTML` and `textContent`, plus the `tagName`, `classList` and the
class names of appended children of its immediate parent (where the
language indicator and copy button land). Setting `innerHTML` on a
processed block would change its rendered text, but a processed block is
never re-read thanks to the marker, so `textContent` here stays the
pre-highlight source text. -/
structure CodeBlock where
  classes : List String
  innerHTML : String
  textContent : String
  parentTag : String
  parentClasses : List String
  parentChildClasses : List String
  deriving Repr, DecidableEq

/-- Find a `language-*` class in a class list and strip the prefix
(`cls.replace('language-', '')` on a class found by `startsWith`). -/
def languageFromClasses (classes : List String) : Option String :=
  (classes.find? (·.startsWith "language-")).map (·.drop 9)

/-- Language detection for one block: a `language-*` class on the block
itself, else on an immediate `PRE` parent, else the default `"text"`. -/
def detectLanguage (b : CodeBlock) : String :=
  match languageFromClasses b.classes with
  | some l => l
  | none =>
      if b.parentTag == "PRE" then (languageFromClasses b.parentClasses).getD "text"
      else "text"

/-- The whitespace characters `String.prototype.trim` strips. -/
def isJsWhitespace (c : Char) : Bool :=
  c == ' ' || c == '\t' || c == '\n' || c == '\r'

/-- The guard `!codeContent.trim()`: the trimmed text is empty exactly
when every character is whitespace. -/
def trimmedEmpty (s : String) : Bool := s.data.all isJsWhitespace

/-- One iteration of the `codeBlocks.forEach` body.  `prism` is
`window.Prism` (absent ⇒ no-op); when present, `Prism.highlight`
(grammar lookup included) is the pure function it carries.  The language
indicator is appended whenever the language is not `"text"` and the
parent is a `PRE` (the source has no presence check for it); the copy
button only when none is there yet.  Returns the updated block and the
`highlightedCount` increment (0 or 1). -/
def processBlock (prism : Option (String → String → String)) (b : CodeBlock) :
    CodeBlock × Nat :=
  if b.classes.contains "prism-highlighted" then (b, 0)
  else
    let language := detectLanguage b
    match prism with
    | none => (b, 0)
    | some hl =>
      if trimmedEmpty b.textContent then (b, 0)
      else
        ({ b with
            innerHTML := hl b.textContent language,
            classes := b.classes ++ ["prism-highlighted"],
            parentChildClasses := b.parentChildClasses ++
              (if language != "text" && b.parentTag == "PRE" then
                ["code-language-indicator"] else []) ++
              (if b.parentTag == "PRE" && !b.parentChildClasses.contains "code-copy-button" then
                ["code-copy-button"] else []) }, 1)

/-- `initSyntaxHighlighter`: for a supported platform, process every node
the platform's code-block selector matches (given as the ordered list
`blocks`) and total the number highlighted; unsupported platforms are a
logged no-op. -/
def initSyntaxHighlighter (platform : String)
    (prism : Option (String → String → String)) (blocks : List CodeBlock) :
    List CodeBlock × Nat :=
  if platform == "chatgpt" || platform == "mistral" then
    (blocks.map fun b => (processBlock prism b).1,
     (blocks.map fun b => (processBlock prism b).2).sum)
  else (blocks, 0)

/-! ## Theme manager (src/content/features/themeManager.js) -/

/-- `AVAILABLE_THEMES`. -/
def AVAILABLE_THEMES : List String := ["light", "dark", "high-contrast", "custom"]

/-- The four body-level theme marker classes removed wholesale by
`applyTheme` before the new one is added. -/
def themeMarkerClasses : List String :=
  ["theme-light", "theme-dark", "theme-high-contrast", "theme-custom"]

/-- `classList.add`: token sets never hold duplicates. -/
def classListAdd (classes : List String) (c : String) : List String :=
  if classes.contains c then classes else classes ++ [c]

/-- `classList.remove(a, b, ...)`: drop every listed token. -/
def classListRemoveAll (classes remove : List String) : List String :=
  classes.filter fun c => !remove.contains c

/-- `updateSyntaxHighlighterTheme`: swap the `prism-*` scheme class on the
body to match the theme. -/
def updateSyntaxHighlighterTheme (theme : String) (bodyClasses : List String) :
    List String :=
  let c := classListRemoveAll bodyClasses ["prism-light", "prism-dark", "prism-high-contrast"]
  if theme == "dark" then classListAdd c "prism-dark"
  else if theme == "high-contrast" then classListAdd c "prism-high-contrast"
  else classListAdd c "prism-light"

/-- Theme-manager state: the body's `classList`, the module-level
`themeStylesheet` reference (the `href` of the last link the manager
created, if any), the manager-inserted link elements currently in the
document head (by `href`, in insertion order), and `currentTheme`. -/
structure ThemeState where
  bodyClasses : List String
  themeStylesheet : Option String
  headThemeLinks : List String
  currentTheme : String
  deriving Repr, DecidableEq

/-- The `href` of the stylesheet link `applyTheme` creates for a theme. -/
def themeHref (theme : String) : String := "themes/" ++ theme ++ ".css"

/-- `applyTheme`: record the theme, remove the previously tracked
stylesheet link and append a fresh one, strip all four theme marker
classes from the body before adding the new theme's, then re-sync the
highlighter's scheme class. -/
def applyTheme (theme : String) (s : ThemeState) : ThemeState :=
  let links :=
    match s.themeStylesheet with
    | some l => s.headThemeLinks.erase l
    | none => s.headThemeLinks
  let afterMarker :=
    classListAdd (classListRemoveAll s.bodyClasses themeMarkerClasses) ("theme-" ++ theme)
  { bodyClasses := updateSyntaxHighlighterTheme theme afterMarker,
    themeStylesheet := some (themeHref theme),
    headThemeLinks := links ++ [themeHref theme],
    currentTheme := theme }

/-- The theme marker classes present on a body class list, in order. -/
def markerClassesOf (bodyClasses : List String) : List String :=
  bodyClasses.filter fun c => themeMarkerClasses.contains c

/-! ## Session recorder (src/unnamed/part_001, second file) -/

/-- A chat message element on the chatgpt platform as the recorder reads
it: the value of its `data-message-author-role` attribute (`none` when
the attribute is absent) and the `innerHTML` of its `.markdown`
descendant (`none` when `querySelector('.markdown')` finds nothing). -/
structure MsgNode where
  role : Option String
  markdownHTML : Option String
  deriving Repr, DecidableEq

/-- JavaScript truthiness of a nullable string: `null`/`undefined` and
the empty string are falsy. -/
def truthyStr : Option String → Bool
  | none => false
  | some s => !s.isEmpty

/-- One recorded message `{role, content, timestamp}`. -/
structure RecordedMessage where
  role : String
  content : String
  timestamp : String
  deriving Repr, DecidableEq

/-- Recorder module state: the `isRecording` flag and the in-memory
`recordedSession` buffer. -/
structure RecorderState where
  isRecording : Bool
  recordedSession : List RecordedMessage
  deriving Repr, DecidableEq

/-- The `SAVE_SESSION` message posted on the session storage channel. -/
structure SaveSessionMsg where
  content : List RecordedMessage
  consentGiven : Bool
  deriving Repr, DecidableEq

/-- `captureExistingMessages` on chatgpt: walk the elements matched by
`[data-message-author-role]` in document order; for each, read the role
attribute and `querySelector('.markdown').innerHTML` (a message without
a `.markdown` descendant throws, aborting the walk but keeping entries
already pushed — the `aborted` flag) and push when both are truthy.
The clock is abstracted as the parameter `ts`. -/
def captureExistingChatgpt (doc : List MsgNode) (ts : String) :
    List RecordedMessage × Bool :=
  match doc with
  | [] => ([], false)
  | n :: rest =>
    match n.markdownHTML with
    | none => ([], true)
    | some html =>
      let entry :=
        if truthyStr n.role && truthyStr (some html) then
          [⟨n.role.getD "", html, ts⟩]
        else []
      let (msgs, aborted) := captureExistingChatgpt rest ts
      (entry ++ msgs, aborted)

/-- The observer installed by `setupMessageObserver`, on chatgpt, handed
one batch of added message elements: a no-op while idle; while recording
it appends, for each added element carrying the role attribute, an entry
when both the role value and `querySelector('.markdown')?.innerHTML` are
truthy. -/
def observeAddedChatgpt (s : RecorderState) (added : List MsgNode) (ts : String) :
    RecorderState :=
  if !s.isRecording then s
  else
    { s with
      recordedSession := s.recordedSession ++
        (added.filterMap fun n =>
          if n.role.isSome && truthyStr n.role && truthyStr n.markdownHTML then
            some ⟨n.role.getD "", n.markdownHTML.getD "", ts⟩
          else none) }

/-- `saveSession`: skip entirely when the buffer is empty, otherwise post
one `SAVE_SESSION` message carrying the whole buffer. -/
def saveSession (buffer : List RecordedMessage) : Option SaveSessionMsg :=
  if buffer.length == 0 then none
  else some ⟨buffer, true⟩

/-- `toggleRecording` on chatgpt.  Starting (idle branch) re-prompts
consent — `freshConsent` is the result of `checkConsent(true)` obtained
at this very action — and on refusal returns with the state untouched;
on success it sets the flag, resets the buffer and snapshots the
existing messages.  Stopping clears the flag and runs `saveSession`.
Returns the new state and the storage-channel message, if any. -/
def toggleRecording (freshConsent : Bool) (doc : List MsgNode) (ts : String)
    (s : RecorderState) : RecorderState × Option SaveSessionMsg :=
  if !s.isRecording then
    if !freshConsent then (s, none)
    else ({ isRecording := true, recordedSession := (captureExistingChatgpt doc ts).1 }, none)
  else
    ({ s with isRecording := false }, saveSession s.recordedSession)

/-! ## Command bar (src/unnamed/part_001, first file) -/

/-- A `{name, text}` command. -/
structure Command where
  name : String
  text : String
  deriving Repr, DecidableEq

/-- `DEFAULT_COMMANDS`: the five built-ins. -/
def DEFAULT_COMMANDS : List Command :=
  [⟨"Explain", "Explain this in simple terms: "⟩,
   ⟨"Summarize", "Summarize this text: "⟩,
   ⟨"Translate", "Translate this to English: "⟩,
   ⟨"Code", "Write code to: "⟩,
   ⟨"Fix", "Fix this code: "⟩]

/-- Command-bar selectors per platform (`PLATFORM_SELECTORS` of the
command-bar module). -/
def commandBarInputSelector (platform : String) : Option String :=
  if platform == "chatgpt" then some "textarea"
  else if platform == "mistral" then some ".chat-input textarea"
  else none

/-- Command-bar state: the in-memory `commands` list, the labels of the
command buttons currently rendered in the bar, and the visibility flag. -/
structure CommandBarState where
  commands : List Command
  buttonLabels : List String
  isCommandBarVisible : Bool
  deriving Repr, DecidableEq

/-- The settings record persisted through the settings channel, restricted
to the field the command bar writes. -/
structure PersistedSettings where
  commands : Option (List Command)
  deriving Repr, DecidableEq

/-- `initCommandBar` state construction: custom commands from storage
override the built-ins wholesale when present, and `createCommandBarUI`
renders one button per command; the bar starts hidden. -/
def initCommandBarState (stored : Option (List Command)) : CommandBarState :=
  let cmds := match stored with | some cs => cs | none => DEFAULT_COMMANDS
  { commands := cmds, buttonLabels := cmds.map (·.name), isCommandBarVisible := false }

/-- `addCustomCommand`: push the new command, append its button, then
persist the full list into the settings record (plain overwrite of the
`commands` field, no merge). Returns the new state and the settings
record handed to `SAVE_SETTINGS`. -/
def addCustomCommand (name text : String) (s : CommandBarState)
    (settings : PersistedSettings) : CommandBarState × PersistedSettings :=
  let cmds := s.commands ++ [⟨name, text⟩]
  ({ s with commands := cmds, buttonLabels := s.buttonLabels ++ [name] },
   { settings with commands := some cmds })

/-- An element of the page carrying a bounding box, tagged with the CSS
selectors it matches; the document is such elements in document order. -/
structure PositionedElem where
  matchedSelectors : List String
  rectTop : Int
  rectLeft : Int
  deriving Repr, DecidableEq

/-- `document.querySelector`: the first element of the document matching
the selector. -/
def querySelectorElem (doc : List PositionedElem) (sel : String) :
    Option PositionedElem :=
  doc.find? fun e => e.matchedSelectors.contains sel

/-- JavaScript `||` on strings: the left operand when truthy (nonempty),
else the right. -/
def jsOrStr (a b : String) : String := if a.isEmpty then b else a

/-- The computed `(bottom, left)` CSS position of the bar. -/
structure BarPosition where
  bottom : Int
  left : Int
  deriving Repr, DecidableEq

/-- `toggleCommandBar`: flip visibility; on becoming visible, look up
`PLATFORM_SELECTORS.chatgpt.inputArea || PLATFORM_SELECTORS.mistral.inputArea`
(verbatim from the source — note the left operand is a constant nonempty
string) and position the bar from that element's bounding box:
`bottom = innerHeight - rect.top + 10`, `left = rect.left`.  Returns the
new visibility flag and the position written, if any. -/
def toggleCommandBar (doc : List PositionedElem) (innerHeight : Int)
    (visible : Bool) : Bool × Option BarPosition :=
  let visible' := !visible
  if visible' then
    let sel := jsOrStr ((commandBarInputSelector "chatgpt").getD "")
                       ((commandBarInputSelector "mistral").getD "")
    match querySelectorElem doc sel with
    | some e => (visible', some ⟨innerHeight - e.rectTop + 10, e.rectLeft⟩)
    | none => (visible', none)
  else (visible', none)

/-- The position the bar would get if it were computed from the element
matched by a given platform's own input-area selector (the behaviour the
specification describes). -/
def platformOwnBarPosition (platform : String) (doc : List PositionedElem)
    (innerHeight : Int) : Option BarPosition :=
  match commandBarInputSelector platform with
  | none => none
  | some sel =>
    match querySelectorElem doc sel with
    | some e => some ⟨innerHeight - e.rectTop + 10, e.rectLeft⟩
    | none => none

/-! ## Orchestrator (src/content/content.js, `initializeExtension`) -/

/-- The five feature modules the orchestrator can start. -/
inductive Feature where
  | syntaxHighlighter
  | clipboardManager
  | themeManager
  | commandBar
  | sessionRecorder
  deriving Repr, DecidableEq

/-- The settings record as `initializeExtension` reads it. -/
structure Settings where
  theme : String
  syntaxHighlighting : Bool
  clipboardEnabled : Bool
  commandBarEnabled : Bool
  sessionRecordingEnabled : Bool
  deriving Repr, DecidableEq

/-- `initializeExtension`: nothing on an undetected platform; otherwise
start each feature in source order — highlighter and clipboard manager
behind their flags, the theme manager unconditionally, the command bar
behind its flag, and the session recorder behind its flag plus a passive
`checkConsent()` (its page-load result is the parameter `consent`). -/
def initializeExtension (platform : Option String) (settings : Settings)
    (consent : Bool) : List Feature :=
  match platform with
  | none => []
  | some _ =>
    (if settings.syntaxHighlighting then [Feature.syntaxHighlighter] else []) ++
    (if settings.clipboardEnabled then [Feature.clipboardManager] else []) ++
    [Feature.themeManager] ++
    (if settings.commandBarEnabled then [Feature.commandBar] else []) ++
    (if settings.sessionRecordingEnabled then
       (if consent then [Feature.sessionRecorder] else []) else [])

/-! ## Helper lemmas -/

/-- A block already bearing the processed marker is returned untouched
with a zero count. -/
theorem processBlock_marked (prism : Option (String → String → String))
    (b : CodeBlock) (h : "prism-highlighted" ∈ b.classes) :
    processBlock prism b = (b, 0) := by
  simp [processBlock, h]

/-- The block produced by one processing step is a fixed point of the
step, contributing zero to the count on a second pass. -/
theorem processBlock_idem (prism : Option (String → String → String))
    (b : CodeBlock) :
    processBlock prism (processBlock prism b).1 = ((processBlock prism b).1, 0) := by
  by_cases hm : "prism-highlighted" ∈ b.classes
  · simp [processBlock_marked prism b hm]
  · cases prism with
    | none =>
      have h1 : processBlock none b = (b, 0) := by simp [processBlock, hm]
      rw [h1]
      exact h1
    | some hl =>
      by_cases he : trimmedEmpty b.textContent = true
      · have h1 : processBlock (some hl) b = (b, 0) := by simp [processBlock, hm, he]
        rw [h1]
        exact h1
      · apply processBlock_marked
        simp [processBlock, hm, he]

/-- Mapping the processing step over an already-processed block list is
the identity and totals zero highlights. -/
theorem processPass_idem_list (prism : Option (String → String → String))
    (bs : List CodeBlock) :
    bs.map ((fun b => (processBlock prism b).1) ∘ fun b => (processBlock prism b).1) =
      bs.map (fun b => (processBlock prism b).1) ∧
    (bs.map ((fun b => (processBlock prism b).2) ∘ fun b => (processBlock prism b).1)).sum = 0 := by
  induction bs with
  | nil => simp
  | cons b rest ih => simp [processBlock_idem, ih.1, ih.2]

/-- Boolean test performed by the observer on one mutation record agrees
with that record's contribution to the qualifying-node count. -/
theorem mutation_test_iff_count (platform : String) (m : MutationRecord) :
    (m.type == "childList" && m.addedNodes.length > 0 &&
      m.addedNodes.any (nodeTriggersCallback platform)) = true ↔
    (if m.type == "childList" then
      (m.addedNodes.filter (nodeTriggersCallback platform)).length else 0) ≠ 0 := by
  by_cases ht : (m.type == "childList") = true
  · simp only [ht, Bool.true_and, if_pos, Bool.and_eq_true, List.any_eq_true,
      decide_eq_true_eq, Ne, List.length_eq_zero]
    constructor
    · rintro ⟨-, x, hx, hpx⟩ hnil
      rw [List.filter_eq_nil_iff] at hnil
      exact hnil x hx hpx
    · intro hnil
      have : ∃ x ∈ m.addedNodes, nodeTriggersCallback platform x = true := by
        by_contra hno
        push_neg at hno
        exact hnil (List.filter_eq_nil_iff.mpr fun a ha => by simpa using hno a ha)
      obtain ⟨x, hx, hpx⟩ := this
      exact ⟨List.length_pos.mpr (List.ne_nil_of_mem hx), x, hx, hpx⟩
  · simp [ht]

/-- The batch-level `shouldCallback` flag is set exactly when the batch
holds at least one qualifying added node. -/
theorem shouldCallback_iff_count (platform : String) (ms : List MutationRecord) :
    shouldCallback platform ms = true ↔ qualifyingAddedCount platform ms ≠ 0 := by
  induction ms with
  | nil => simp [shouldCallback, qualifyingAddedCount]
  | cons m rest ih =>
    simp only [shouldCallback, List.any_cons, Bool.or_eq_true, qualifyingAddedCount,
      List.map_cons, List.sum_cons] at *
    rw [mutation_test_iff_count]
    constructor
    · rintro (h | h)
      · omega
      · have := ih.mp h; omega
    · intro h
      by_cases hm : (if m.type == "childList" then
          (m.addedNodes.filter (nodeTriggersCallback platform)).length else 0) ≠ 0
      · exact Or.inl hm
      · exact Or.inr (ih.mpr (by omega))

/-! ## Claim theorems -/

/-- C3: for every mutation batch, the registered reaction callback is
invoked exactly once when the batch contains at least one newly added
element node satisfying the platform predicate, and zero times otherwise
(removals and attribute-only changes never qualify). -/
theorem C3_batch_coalescing (platform : String) (ms : List MutationRecord) :
    callbackInvocations platform ms =
      if qualifyingAddedCount platform ms = 0 then 0 else 1 := by
  by_cases h : qualifyingAddedCount platform ms = 0
  · have : shouldCallback platform ms = false := by
      by_contra hc
      exact absurd h ((shouldCallback_iff_count platform ms).mp
        (by revert hc; cases shouldCallback platform ms <;> simp))
    simp [callbackInvocations, this, h]
  · have : shouldCallback platform ms = true :=
      (shouldCallback_iff_count platform ms).mpr h
    simp [callbackInvocations, this, h]

/-- C2: the syntax highlighter is idempotent — a second invocation on the
unchanged document transforms zero additional code blocks and returns
every block as is; in particular any block bearing the `prism-highlighted`
marker is skipped unchanged. -/
theorem C2_highlighter_idempotent (platform : String)
    (prism : Option (String → String → String)) (blocks : List CodeBlock) :
    initSyntaxHighlighter platform prism
        (initSyntaxHighlighter platform prism blocks).1 =
      ((initSyntaxHighlighter platform prism blocks).1, 0) ∧
    ∀ b : CodeBlock, "prism-highlighted" ∈ b.classes →
      processBlock prism b = (b, 0) := by
  refine ⟨?_, fun b h => processBlock_marked prism b h⟩
  by_cases hp : (platform == "chatgpt" || platform == "mistral") = true
  · have h := processPass_idem_list prism blocks
    simp [initSyntaxHighlighter, hp, h.1, h.2]
  · simp [initSyntaxHighlighter, hp]

/-- Witness for C2: a second pass over one freshly highlighted chatgpt
code block is the identity, and a marked block is skipped unchanged. -/
theorem C2_highlighter_idempotent_witness :
    initSyntaxHighlighter "chatgpt" (some fun c _ => c)
        (initSyntaxHighlighter "chatgpt" (some fun c _ => c)
          [⟨[], "x", "x", "PRE", [], []⟩]).1 =
      ((initSyntaxHighlighter "chatgpt" (some fun c _ => c)
          [⟨[], "x", "x", "PRE", [], []⟩]).1, 0) ∧
    processBlock (some fun c _ => c) ⟨["prism-highlighted"], "y", "y", "PRE", [], []⟩ =
      (⟨["prism-highlighted"], "y", "y", "PRE", [], []⟩, 0) :=
  ⟨(C2_highlighter_idempotent "chatgpt" (some fun c _ => c)
      [⟨[], "x", "x", "PRE", [], []⟩]).1,
   (C2_highlighter_idempotent "chatgpt" (some fun c _ => c) []).2
      ⟨["prism-highlighted"], "y", "y", "PRE", [], []⟩ (by decide)⟩

/-- C9: a code block whose text content trims to nothing is left entirely
unchanged by a processing pass — no rewrite, no badge, no copy button,
no processed marker — and therefore remains a fixed point under every
subsequent pass. -/
theorem C9_whitespace_block_untouched (prism : Option (String → String → String))
    (b : CodeBlock) (h : trimmedEmpty b.textContent = true) :
    processBlock prism b = (b, 0) ∧
    ∀ n : Nat, (fun x => (processBlock prism x).1)^[n] b = b := by
  have hfix : processBlock prism b = (b, 0) := by
    by_cases hm : "prism-highlighted" ∈ b.classes
    · exact processBlock_marked prism b hm
    · cases prism with
      | none => simp [processBlock, hm]
      | some hl => simp [processBlock, hm, h]
  refine ⟨hfix, fun n => ?_⟩
  induction n with
  | zero => rfl
  | succ k ihk => rw [Function.iterate_succ_apply, hfix, ihk]

/-- Witness for C9 at a concrete whitespace-only block. -/
theorem C9_whitespace_block_untouched_witness :
    processBlock (some fun c _ => c)
        ⟨["foo"], " \n ", " \n ", "PRE", [], []⟩ =
      (⟨["foo"], " \n ", " \n ", "PRE", [], []⟩, 0) :=
  (C9_whitespace_block_untouched (some fun c _ => c)
    ⟨["foo"], " \n ", " \n ", "PRE", [], []⟩ (by decide)).1

/-- C4: the recorder never leaves idle without a fresh affirmative consent
result obtained at the start action itself (`checkConsent(true)` is the
sole input of the transition — no cached value enters it), and a negative
fresh check leaves the idle state untouched with nothing saved. -/
theorem C4_consent_gating (freshConsent : Bool) (doc : List MsgNode)
    (ts : String) (s : RecorderState) (h : s.isRecording = false) :
    ((toggleRecording freshConsent doc ts s).1.isRecording = true →
      freshConsent = true) ∧
    (freshConsent = false → toggleRecording freshConsent doc ts s = (s, none)) := by
  cases freshConsent <;> simp [toggleRecording, h]

/-- Witness for C4: a refused fresh consent check from idle changes
nothing and saves nothing. -/
theorem C4_consent_gating_witness :
    toggleRecording false [⟨some "user", some "hi"⟩] "t0" ⟨false, []⟩ =
      (⟨false, []⟩, none) :=
  (C4_consent_gating false [⟨some "user", some "hi"⟩] "t0" ⟨false, []⟩ rfl).2 rfl

/-- C6: stopping a recording whose buffer is empty performs no storage
write — the transition to idle posts no `SAVE_SESSION` message at all. -/
theorem C6_empty_session_guard (freshConsent : Bool) (doc : List MsgNode)
    (ts : String) (s : RecorderState) (h1 : s.isRecording = true)
    (h2 : s.recordedSession = []) :
    toggleRecording freshConsent doc ts s = ({ s with isRecording := false }, none) := by
  simp [toggleRecording, saveSession, h1, h2]

/-- Witness for C6: stopping an empty recording saves nothing. -/
theorem C6_empty_session_guard_witness :
    toggleRecording true [] "t0" ⟨true, []⟩ = (⟨false, []⟩, none) :=
  C6_empty_session_guard true [] "t0" ⟨true, []⟩ rfl rfl

/-- C1: chatgpt end-to-end recording scenario — three pre-existing
messages with roles [user, assistant, user] are captured in document
order at start, an assistant message observed while recording becomes
the fourth entry, and stopping posts exactly these four entries, in
order, in one `SAVE_SESSION` message. -/
theorem C1_chatgpt_recording_e2e (c1 c2 c3 c4 ts1 ts2 ts3 : String)
    (stopConsent : Bool)
    (h1 : c1.isEmpty = false) (h2 : c2.isEmpty = false)
    (h3 : c3.isEmpty = false) (h4 : c4.isEmpty = false) :
    (toggleRecording true
        [⟨some "user", some c1⟩, ⟨some "assistant", some c2⟩, ⟨some "user", some c3⟩]
        ts1 ⟨false, []⟩).1 =
      ⟨true, [⟨"user", c1, ts1⟩, ⟨"assistant", c2, ts1⟩, ⟨"user", c3, ts1⟩]⟩ ∧
    observeAddedChatgpt
        ⟨true, [⟨"user", c1, ts1⟩, ⟨"assistant", c2, ts1⟩, ⟨"user", c3, ts1⟩]⟩
        [⟨some "assistant", some c4⟩] ts2 =
      ⟨true, [⟨"user", c1, ts1⟩, ⟨"assistant", c2, ts1⟩, ⟨"user", c3, ts1⟩,
              ⟨"assistant", c4, ts2⟩]⟩ ∧
    toggleRecording stopConsent
        [⟨some "user", some c1⟩, ⟨some "assistant", some c2⟩, ⟨some "user", some c3⟩]
        ts3
        ⟨true, [⟨"user", c1, ts1⟩, ⟨"assistant", c2, ts1⟩, ⟨"user", c3, ts1⟩,
                ⟨"assistant", c4, ts2⟩]⟩ =
      (⟨false, [⟨"user", c1, ts1⟩, ⟨"assistant", c2, ts1⟩, ⟨"user", c3, ts1⟩,
                ⟨"assistant", c4, ts2⟩]⟩,
       some ⟨[⟨"user", c1, ts1⟩, ⟨"assistant", c2, ts1⟩, ⟨"user", c3, ts1⟩,
              ⟨"assistant", c4, ts2⟩], true⟩) := by
  have hu : ("user").isEmpty = false := by decide
  have ha : ("assistant").isEmpty = false := by decide
  refine ⟨?_, ?_, ?_⟩
  · simp [toggleRecording, captureExistingChatgpt, truthyStr, h1, h2, h3, hu, ha]
  · simp [observeAddedChatgpt, truthyStr, h4, ha]
  · simp [toggleRecording, saveSession]

/-- Witness for C1 with concrete message contents and timestamps. -/
theorem C1_chatgpt_recording_e2e_witness :
    (toggleRecording true
        [⟨some "user", some "a"⟩, ⟨some "assistant", some "b"⟩, ⟨some "user", some "c"⟩]
        "t1" ⟨false, []⟩).1 =
      ⟨true, [⟨"user", "a", "t1"⟩, ⟨"assistant", "b", "t1"⟩, ⟨"user", "c", "t1"⟩]⟩ ∧
    observeAddedChatgpt
        ⟨true, [⟨"user", "a", "t1"⟩, ⟨"assistant", "b", "t1"⟩, ⟨"user", "c", "t1"⟩]⟩
        [⟨some "assistant", some "d"⟩] "t2" =
      ⟨true, [⟨"user", "a", "t1"⟩, ⟨"assistant", "b", "t1"⟩, ⟨"user", "c", "t1"⟩,
              ⟨"assistant", "d", "t2"⟩]⟩ ∧
    toggleRecording false
        [⟨some "user", some "a"⟩, ⟨some "assistant", some "b"⟩, ⟨some "user", some "c"⟩]
        "t3"
        ⟨true, [⟨"user", "a", "t1"⟩, ⟨"assistant", "b", "t1"⟩, ⟨"user", "c", "t1"⟩,
                ⟨"assistant", "d", "t2"⟩]⟩ =
      (⟨false, [⟨"user", "a", "t1"⟩, ⟨"assistant", "b", "t1"⟩, ⟨"user", "c", "t1"⟩,
                ⟨"assistant", "d", "t2"⟩]⟩,
       some ⟨[⟨"user", "a", "t1"⟩, ⟨"assistant", "b", "t1"⟩, ⟨"user", "c", "t1"⟩,
              ⟨"assistant", "d", "t2"⟩], true⟩) :=
  C1_chatgpt_recording_e2e "a" "b" "c" "d" "t1" "t2" "t3" false
    rfl rfl rfl rfl

/-- `markerClassesOf` distributes over append. -/
theorem markerClassesOf_append (a b : List String) :
    markerClassesOf (a ++ b) = markerClassesOf a ++ markerClassesOf b :=
  List.filter_append a b

/-- Filtering by a predicate that keeps every theme marker class leaves
the marker-class projection untouched. -/
theorem markerClassesOf_filter (q : String → Bool)
    (hq : ∀ c, c ∈ themeMarkerClasses → q c = true)
    (cs : List String) :
    markerClassesOf (cs.filter q) = markerClassesOf cs := by
  unfold markerClassesOf
  rw [List.filter_filter]
  apply List.filter_congr
  intro a _
  by_cases h : a ∈ themeMarkerClasses
  · simp [h, hq a h]
  · simp [h]

/-- Removing the four theme marker classes leaves no marker behind. -/
theorem markerClassesOf_removeAll (cs : List String) :
    markerClassesOf (classListRemoveAll cs themeMarkerClasses) = [] := by
  unfold markerClassesOf classListRemoveAll
  rw [List.filter_filter]
  have hfun : ∀ a : String,
      ((!themeMarkerClasses.contains a) && themeMarkerClasses.contains a) = false := by
    intro a
    cases themeMarkerClasses.contains a <;> rfl
  simp [hfun]

/-- `classList.add` of a non-marker class does not change the markers. -/
theorem markerClassesOf_add_nonmarker (cs : List String) (p : String)
    (hp : p ∉ themeMarkerClasses) :
    markerClassesOf (classListAdd cs p) = markerClassesOf cs := by
  unfold classListAdd
  by_cases h : cs.contains p = true
  · rw [if_pos h]
  · rw [if_neg h, markerClassesOf_append]
    have : markerClassesOf [p] = [] := by simp [markerClassesOf, hp]
    rw [this, List.append_nil]

/-- The highlighter's `prism-*` scheme swap never touches the theme
marker classes. -/
theorem markerClassesOf_update (t : String) (cs : List String) :
    markerClassesOf (updateSyntaxHighlighterTheme t cs) = markerClassesOf cs := by
  have hbase : markerClassesOf
      (classListRemoveAll cs ["prism-light", "prism-dark", "prism-high-contrast"]) =
      markerClassesOf cs := by
    unfold classListRemoveAll
    apply markerClassesOf_filter
    intro c hc
    simp [themeMarkerClasses] at hc
    rcases hc with rfl | rfl | rfl | rfl <;> decide
  unfold updateSyntaxHighlighterTheme
  split
  · rw [markerClassesOf_add_nonmarker _ _ (by decide), hbase]
  · split
    · rw [markerClassesOf_add_nonmarker _ _ (by decide), hbase]
    · rw [markerClassesOf_add_nonmarker _ _ (by decide), hbase]

/-- After `applyTheme t` the body carries exactly one theme marker class:
`theme-t`. -/
theorem applyTheme_markers (t : String) (ht : t ∈ AVAILABLE_THEMES)
    (s : ThemeState) :
    markerClassesOf (applyTheme t s).bodyClasses = ["theme-" ++ t] := by
  have hmem : ("theme-" ++ t) ∈ themeMarkerClasses := by
    simp [AVAILABLE_THEMES] at ht
    rcases ht with rfl | rfl | rfl | rfl <;> decide
  unfold applyTheme
  rw [markerClassesOf_update]
  unfold classListAdd
  by_cases hc : (classListRemoveAll s.bodyClasses themeMarkerClasses).contains
      ("theme-" ++ t) = true
  · exfalso
    have hmemX : ("theme-" ++ t) ∈ classListRemoveAll s.bodyClasses themeMarkerClasses := by
      simpa using hc
    have hcontains : themeMarkerClasses.contains ("theme-" ++ t) = true := by
      simpa using hmem
    have hmem2 : ("theme-" ++ t) ∈
        markerClassesOf (classListRemoveAll s.bodyClasses themeMarkerClasses) :=
      List.mem_filter.mpr ⟨hmemX, hcontains⟩
    rw [markerClassesOf_removeAll] at hmem2
    exact absurd hmem2 (List.not_mem_nil _)
  · rw [if_neg hc, markerClassesOf_append, markerClassesOf_removeAll,
      List.nil_append]
    simp [markerClassesOf, hmem]

/-- `applyTheme` keeps exactly one manager-inserted stylesheet link: when
the tracked link is the sole one present, the old link is removed before
the new one is appended. -/
theorem applyTheme_links (t : String) (s : ThemeState)
    (h : s.headThemeLinks = s.themeStylesheet.toList) :
    (applyTheme t s).headThemeLinks = [themeHref t] ∧
    (applyTheme t s).themeStylesheet = some (themeHref t) := by
  unfold applyTheme
  cases hts : s.themeStylesheet with
  | none =>
    rw [hts] at h
    simp [hts, h]
  | some l =>
    rw [hts] at h
    simp [hts, h]

/-- C5: theme exclusivity — applying theme X then theme Y, starting from
a page into which the manager has not yet inserted a stylesheet, leaves
exactly one theme marker class on the body (Y's) and exactly one
manager-inserted theme stylesheet link (Y's); the old link is removed
wholesale before the new one is appended. -/
theorem C5_theme_exclusivity (X Y : String) (s : ThemeState)
    (hX : X ∈ AVAILABLE_THEMES) (hY : Y ∈ AVAILABLE_THEMES)
    (h0 : s.themeStylesheet = none) (h1 : s.headThemeLinks = []) :
    markerClassesOf (applyTheme Y (applyTheme X s)).bodyClasses = ["theme-" ++ Y] ∧
    (applyTheme Y (applyTheme X s)).headThemeLinks = [themeHref Y] := by
  have hfirst := applyTheme_links X s (by rw [h0, h1]; rfl)
  have hsecond := applyTheme_links Y (applyTheme X s)
    (by rw [hfirst.1, hfirst.2]; rfl)
  exact ⟨applyTheme_markers Y hY (applyTheme X s), hsecond.1⟩

/-- Witness for C5: dark then light from a pristine page. -/
theorem C5_theme_exclusivity_witness :
    markerClassesOf (applyTheme "light" (applyTheme "dark"
        ⟨["some-page-class"], none, [], "light"⟩)).bodyClasses = ["theme-light"] ∧
    (applyTheme "light" (applyTheme "dark"
        ⟨["some-page-class"], none, [], "light"⟩)).headThemeLinks =
      [themeHref "light"] :=
  C5_theme_exclusivity "dark" "light" ⟨["some-page-class"], none, [], "light"⟩
    (by decide) (by decide) rfl rfl

/-- C7: the command bar, on becoming visible, is positioned from the
element found by the constant selector expression
`PLATFORM_SELECTORS.chatgpt.inputArea || PLATFORM_SELECTORS.mistral.inputArea`,
whose left operand `'textarea'` is always truthy — so on mistral the
position comes from the document's first `textarea`, not from mistral's
own `.chat-input textarea` input control.  Evaluated here on a mistral
page whose first textarea (top 10, left 20) is outside `.chat-input`
while the platform's input control sits at top 500, left 30, with
`window.innerHeight = 800`: the code computes bottom 800 / left 20 where
the specified behaviour computes bottom 310 / left 30. -/
theorem C7_commandbar_position_wrong_selector :
    toggleCommandBar
        [⟨["textarea"], 10, 20⟩, ⟨["textarea", ".chat-input textarea"], 500, 30⟩]
        800 false = (true, some ⟨800, 20⟩) ∧
    platformOwnBarPosition "mistral"
        [⟨["textarea"], 10, 20⟩, ⟨["textarea", ".chat-input textarea"], 500, 30⟩]
        800 = some ⟨310, 30⟩ ∧
    (toggleCommandBar
        [⟨["textarea"], 10, 20⟩, ⟨["textarea", ".chat-input textarea"], 500, 30⟩]
        800 false).2 ≠
      platformOwnBarPosition "mistral"
        [⟨["textarea"], 10, 20⟩, ⟨["textarea", ".chat-input textarea"], 500, 30⟩]
        800 := by
  refine ⟨by decide, by decide, by decide⟩

/-- C8: starting from the five built-ins, adding the custom command
{name:"Foo", text:"Do foo: "} yields six visible command buttons and
persists a settings record whose command list is the whole six-element
in-memory list, overwritten in one piece. -/
theorem C8_add_custom_command :
    (initCommandBarState none).buttonLabels.length = 5 ∧
    (addCustomCommand "Foo" "Do foo: " (initCommandBarState none)
        ⟨none⟩).1.buttonLabels.length = 6 ∧
    (addCustomCommand "Foo" "Do foo: " (initCommandBarState none)
        ⟨none⟩).1.commands.length = 6 ∧
    (addCustomCommand "Foo" "Do foo: " (initCommandBarState none) ⟨none⟩).2.commands =
      some (addCustomCommand "Foo" "Do foo: " (initCommandBarState none)
        ⟨none⟩).1.commands ∧
    (addCustomCommand "Foo" "Do foo: " (initCommandBarState none) ⟨none⟩).2.commands =
      some (DEFAULT_COMMANDS ++ [⟨"Foo", "Do foo: "⟩]) := by
  refine ⟨by decide, by decide, by decide, by decide, by decide⟩

/-- C10: on any detected platform the orchestrator starts the theme
manager unconditionally, while each of the other four feature modules
starts only when its settings flag is set (the first three exactly when
it is set; the session recorder additionally needs the page-load consent
check, so its flag is necessary). -/
theorem C10_theme_unconditional_gating (p : String) (settings : Settings)
    (consent : Bool) :
    Feature.themeManager ∈ initializeExtension (some p) settings consent ∧
    (Feature.syntaxHighlighter ∈ initializeExtension (some p) settings consent ↔
      settings.syntaxHighlighting = true) ∧
    (Feature.clipboardManager ∈ initializeExtension (some p) settings consent ↔
      settings.clipboardEnabled = true) ∧
    (Feature.commandBar ∈ initializeExtension (some p) settings consent ↔
      settings.commandBarEnabled = true) ∧
    (Feature.sessionRecorder ∈ initializeExtension (some p) settings consent →
      settings.sessionRecordingEnabled = true) := by
  obtain ⟨th, sh, cl, cb, sr⟩ := settings
  cases sh <;> cases cl <;> cases cb <;> cases sr <;> cases consent <;>
    simp [initializeExtension]

/-- Witness for C10 at a settings record with every feature flag off:
the theme manager still starts and nothing else does. -/
theorem C10_theme_unconditional_gating_witness :
    Feature.themeManager ∈
      initializeExtension (some "chatgpt") ⟨"light", false, false, false, false⟩ false ∧
    ¬ Feature.sessionRecorder ∈
      initializeExtension (some "chatgpt") ⟨"light", false, false, false, false⟩ false :=
  ⟨(C10_theme_unconditional_gating "chatgpt" ⟨"light", false, false, false, false⟩ false).1,
   fun h => by
    have := (C10_theme_unconditional_gating "chatgpt"
      ⟨"light", false, false, false, false⟩ false).2.2.2.2 h
    exact absurd this (by decide)⟩

end ChatbotEnhancer
